import Mathlib

/-!
Verification of the Amazon-Ads analytics pipeline (metrics aggregation engine,
data-loader tools, insights stage and supervisor routing) against its
natural-language specification.

The tabular layer (`pandas`) is shallowly embedded: a data frame is a list of
column names together with rows of optional cells; a missing cell models
`NaN`/null.  Python floats are embedded as rationals (`ℚ`): the division in
`_safe_div` is guarded by an exact zero test before any division happens, so
no value of the embedding ever corresponds to an IEEE infinity or NaN.
Fallible Python code (raised exceptions) is embedded as `Except String`;
external effects (the Excel filesystem layer, the routing / insights LLM
calls) are embedded as explicit oracle parameters.
-/

attribute [local semireducible] Rat.add Rat.mul Rat.sub Rat.inv

/-- Decidable equality of `Except` results, used to evaluate the embedded
computations on concrete inputs. -/
instance {ε α : Type} [DecidableEq ε] [DecidableEq α] : DecidableEq (Except ε α) := fun x y =>
  match x, y with
  | .error a, .error b =>
    if h : a = b then .isTrue (by rw [h]) else .isFalse (by intro hc; cases hc; exact h rfl)
  | .ok a, .ok b =>
    if h : a = b then .isTrue (by rw [h]) else .isFalse (by intro hc; cases hc; exact h rfl)
  | .error _, .ok _ => .isFalse (by intro hc; cases hc)
  | .ok _, .error _ => .isFalse (by intro hc; cases hc)

/-- A scalar cell value of a data frame: a number or a string. -/
inductive Val where
  | num (q : ℚ)
  | str (s : String)
deriving DecidableEq

/-- A cell of a data frame; `none` models a missing value (`NaN`). -/
abbrev Cell := Option Val

/-- Embedding of a `pandas.DataFrame`: named columns and aligned rows.
Each row is read positionally against `cols`. -/
structure Frame where
  cols : List String
  rows : List (List Cell)
deriving DecidableEq

/-- Index of the first occurrence of a column name. -/
def idxOf? (c : String) : List String → Option ℕ
  | [] => none
  | x :: t => if x = c then some 0 else (idxOf? c t).map (· + 1)

/-- Look a cell up by column name (first matching column, as pandas column
indexing does for our frames); a column absent from the frame reads as
missing. -/
def getCell (cols : List String) (row : List Cell) (c : String) : Cell :=
  match idxOf? c cols with
  | some i => row.getD i none
  | none => none

/-- `List.isPrefixOf` specialised test that `needle` occurs contiguously in
`hay` (Python's `needle in hay` on strings). -/
def subChars (needle : List Char) : List Char → Bool
  | [] => needle.isEmpty
  | c :: t => needle.isPrefixOf (c :: t) || subChars needle t

/-- Python substring containment `needle in hay`. -/
def strContains (hay needle : String) : Bool :=
  subChars needle.toList hay.toList

/-- Python `str.strip()`: drop leading and trailing whitespace.  (Defined
structurally on the character list so that it evaluates by kernel
reduction.) -/
def strTrim (s : String) : String :=
  ⟨((s.data.dropWhile Char.isWhitespace).reverse.dropWhile Char.isWhitespace).reverse⟩

/-- `_normalize_columns`: strip whitespace from every column name. -/
def normalize_columns (f : Frame) : Frame :=
  { f with cols := f.cols.map strTrim }

/-- The normalisation key used by `_first_existing_column`: lower-case and
drop spaces and underscores. -/
def canonKey (s : String) : String :=
  ⟨(s.data.map Char.toLower).filter (fun c => !(c == ' ' || c == '_'))⟩

/-- `_first_existing_column`: first candidate that matches a column of the
frame under `canonKey`; the Python dict comprehension keeps the *last*
matching column for a given key, hence `getLast?`. -/
def first_existing_column (cols : List String) (cands : List String) : Option String :=
  cands.findSome? (fun cand =>
    (cols.filter (fun c => canonKey c = canonKey cand)).getLast?)

/-- `_extract_numeric_columns`: resolve the five required numeric columns,
or fail with the message naming the missing canonical fields. -/
def extract_numeric_columns (cols : List String) :
    Except String (String × String × String × String × String) :=
  let spendCol := first_existing_column cols ["Spend", "spend"]
  let salesCol := first_existing_column cols
    ["Sales", "sales", "Revenue", "revenue",
     "14 Day Total Sales (₹)", "14 Day Total Sales – (Click)"]
  let ordersCol := first_existing_column cols
    ["Orders", "orders", "Purchases",
     "14 Day Total Orders (#)", "14 Day Total Orders (#) – (Click)"]
  let impressionsCol := first_existing_column cols ["Impressions", "impressions"]
  let clicksCol := first_existing_column cols ["Clicks", "clicks"]
  match spendCol, salesCol, ordersCol, impressionsCol, clicksCol with
  | some sc, some slc, some oc, some ic, some cc => .ok (sc, slc, oc, ic, cc)
  | _, _, _, _, _ =>
    let missing :=
      (if spendCol.isNone then ["spend"] else []) ++
      (if salesCol.isNone then ["sales"] else []) ++
      (if ordersCol.isNone then ["orders"] else []) ++
      (if impressionsCol.isNone then ["impressions"] else []) ++
      (if clicksCol.isNone then ["clicks"] else [])
    .error ("Required numeric columns not found: " ++ String.intercalate ", " missing ++ ".")

/-- `_safe_div`: guarded division, `0` on a zero denominator. -/
def safe_div (numerator denominator : ℚ) : ℚ :=
  if denominator = 0 then 0 else numerator / denominator

/-- Numeric reading of a cell with `fillna(0)`: a missing cell counts as 0.
(Numeric metric columns are assumed to hold numeric cells.) -/
def cellNum (c : Cell) : ℚ :=
  match c with
  | some (.num q) => q
  | some (.str _) => 0
  | none => 0

/-- `df[col].fillna(0).sum()`. -/
def colSum (f : Frame) (c : String) : ℚ :=
  (f.rows.map (fun r => cellNum (getCell f.cols r c))).sum

/-- Python `int(...)`: truncation of a rational toward zero. -/
def rat_trunc (q : ℚ) : ℤ :=
  if 0 ≤ q then ⌊q⌋ else ⌈q⌉

/-- `BasePerformanceMetrics`: the base sums and the five derived ratios. -/
structure BaseMetrics where
  spend : ℚ
  sales : ℚ
  orders : ℤ
  impressions : ℤ
  clicks : ℤ
  ctr : ℚ
  cvr : ℚ
  cpc : ℚ
  acos : ℚ
  roas : ℚ
deriving DecidableEq

/-- `_aggregate_base_metrics`: resolve the numeric columns of the grouped
frame, sum them (missing values as 0, count fields truncated by `int(...)`),
and compute the five zero-safe derived ratios. -/
def aggregate_base_metrics (f : Frame) : Except String BaseMetrics :=
  match extract_numeric_columns f.cols with
  | .error e => .error e
  | .ok (sc, slc, oc, ic, cc) =>
    let spend := colSum f sc
    let sales := colSum f slc
    let orders := rat_trunc (colSum f oc)
    let impressions := rat_trunc (colSum f ic)
    let clicks := rat_trunc (colSum f cc)
    .ok { spend := spend, sales := sales, orders := orders,
          impressions := impressions, clicks := clicks,
          ctr := safe_div (clicks : ℚ) (impressions : ℚ),
          cvr := safe_div (orders : ℚ) (clicks : ℚ),
          cpc := safe_div spend (clicks : ℚ),
          acos := safe_div spend sales,
          roas := safe_div sales spend }

/-- Python `str(...)` of a group-key cell: a missing key value (`NaN`, kept by
`dropna=False`) prints as `"nan"`.  (The textual form of numeric keys is not
relied on by any claim.) -/
def cellStr (c : Cell) : String :=
  match c with
  | none => "nan"
  | some (.str s) => s
  | some (.num q) => toString q

/-- `str(key_map.get(col))` where `key_map = dict(zip(group_keys, key_vals))`:
a column that is not among the group keys reads as `None`, which `str`
renders as `"None"`. -/
def strOfKeyGet (keys : List String) (kv : List Cell) (c : String) : String :=
  match (keys.zip kv).lookup c with
  | some cell => cellStr cell
  | none => "None"

/-- `df[c] = v`: overwrite column `c` when present, else append it. -/
def setCol (f : Frame) (c : String) (v : Cell) : Frame :=
  match idxOf? c f.cols with
  | some i => ⟨f.cols, f.rows.map (fun r => r.set i v)⟩
  | none => ⟨f.cols ++ [c], f.rows.map (fun r => r ++ [v])⟩

/-- `pd.concat(frames)`: union of the columns in order of first appearance;
rows are re-indexed against the union, absent columns becoming missing. -/
def concat_frames (fs : List Frame) : Frame :=
  let cols := fs.foldl (fun acc f => acc ++ f.cols.filter (fun c => !acc.contains c)) []
  ⟨cols, fs.flatMap (fun f => f.rows.map (fun r => cols.map (getCell f.cols r)))⟩

/-- The group key of a row: its tuple of cells at the key columns. -/
def keyOf (cols : List String) (keys : List String) (row : List Cell) : List Cell :=
  keys.map (getCell cols row)

/-- `df.groupby(keys, dropna=False)`: one group per distinct key tuple
(missing key values form their own group).  pandas emits groups sorted by
key; the embedding uses a canonical deduplication order instead — every
claim proved about grouping is insensitive to the emission order. -/
def group_by (f : Frame) (keys : List String) : List (List Cell × Frame) :=
  ((f.rows.map (keyOf f.cols keys)).dedup).map
    (fun k => (k, ⟨f.cols, f.rows.filter (fun r => decide (keyOf f.cols keys r = k))⟩))

/-- The pydantic `Field(ge=0)` constraints on every numeric field of
`BasePerformanceMetrics`. -/
def validBase (b : BaseMetrics) : Bool :=
  decide (0 ≤ b.spend) && decide (0 ≤ b.sales) && decide (0 ≤ b.orders) &&
  decide (0 ≤ b.impressions) && decide (0 ≤ b.clicks) && decide (0 ≤ b.ctr) &&
  decide (0 ≤ b.cvr) && decide (0 ≤ b.cpc) && decide (0 ≤ b.acos) && decide (0 ≤ b.roas)

/-- The `CampaignType` enum (`"SD" | "SB"`). -/
inductive CampaignType where
  | SD
  | SB
deriving DecidableEq

/-- The `__campaign_type` tag attached to each loaded dataset, keyed on the
requested dataset name. -/
def campaign_type_for (name : String) : String :=
  if strContains name "sponsored_display" then "SD"
  else if strContains name "sponsored_brands" then "SB"
  else "Other"

/-- Validation of the `campaign_type` field: `Optional[CampaignType]`
accepts `None`, `"SD"` and `"SB"` and rejects anything else (in particular
the `"Other"` tag). -/
def parseCampaignType (c : Option Cell) : Except String (Option CampaignType) :=
  match c with
  | none => .ok none
  | some none => .ok none
  | some (some (.str "SD")) => .ok (some .SD)
  | some (some (.str "SB")) => .ok (some .SB)
  | some (some _) => .error "validation error: campaign_type"

/-- `CampaignMetrics` (pydantic): base metrics plus campaign dimensions.
The inherited base fields are kept as a nested record; `portfolio_name` is
never set by the computation and is omitted. -/
structure CampaignMetrics where
  campaign_id : Option String
  campaign_name : Option String
  campaign_type : Option CampaignType
  base : BaseMetrics
deriving DecidableEq

/-- Construction + pydantic validation of one `CampaignMetrics` row from a
group key and its aggregated base metrics. -/
def mk_campaign_metrics (idCol nameCol : Option String) (keys : List String)
    (kv : List Cell) (b : BaseMetrics) : Except String CampaignMetrics :=
  if validBase b then
    match parseCampaignType ((keys.zip kv).lookup "__campaign_type") with
    | .error e => .error e
    | .ok ct =>
      .ok { campaign_id := idCol.map (strOfKeyGet keys kv),
            campaign_name := nameCol.map (strOfKeyGet keys kv),
            campaign_type := ct, base := b }
  else .error "validation error: base metrics out of range"

/-- The per-group loop shared by the three grouped computations: a group
whose numeric columns fail to resolve is skipped (`except ValueError:
continue`); a group whose entity fails pydantic validation aborts the whole
computation (that exception is not caught). -/
def build_entries (mk : List Cell → BaseMetrics → Except String α) :
    List (List Cell × Frame) → Except String (List α)
  | [] => .ok []
  | (k, g) :: rest =>
    match aggregate_base_metrics g with
    | .error _ => build_entries mk rest
    | .ok b =>
      match mk k b with
      | .error e => .error e
      | .ok x =>
        match build_entries mk rest with
        | .error e => .error e
        | .ok xs => .ok (x :: xs)

/-- The numeric entries of an entity's `model_dump()` dict. -/
def base_field (b : BaseMetrics) : String → Option ℚ
  | "spend" => some b.spend
  | "sales" => some b.sales
  | "orders" => some (b.orders : ℚ)
  | "impressions" => some (b.impressions : ℚ)
  | "clicks" => some (b.clicks : ℚ)
  | "ctr" => some b.ctr
  | "cvr" => some b.cvr
  | "cpc" => some b.cpc
  | "acos" => some b.acos
  | "roas" => some b.roas
  | _ => none

/-- The sort key `float(x.get(sort_by, 0.0) or 0.0)`: an absent key or a
falsy (`None`/`0.0`) value reads as `0.0`.  The claims only sort by numeric
field names. -/
def sort_key (base : α → BaseMetrics) (sortBy : String) (x : α) : ℚ :=
  (base_field (base x) sortBy).getD 0

/-- Stable insertion into a sorted list: the new element goes before the
first element it compares `le` to. -/
def sinsert (le : α → α → Bool) (x : α) : List α → List α
  | [] => [x]
  | y :: t => if le x y then x :: y :: t else y :: sinsert le x t

/-- Stable sort by the boolean comparator `le`.  Python's `sorted` is a
stable sort; for the (total) key comparators used here every stable sort
produces the same list, so structural insertion sort embeds it exactly. -/
def ssort (le : α → α → Bool) : List α → List α
  | [] => []
  | x :: t => sinsert le x (ssort le t)

/-- `sorted(results, key=..., reverse=not ascending)`: a stable sort by the
requested field, descending by default. -/
def sort_entries (base : α → BaseMetrics) (sortBy : String) (ascending : Bool)
    (l : List α) : List α :=
  ssort (fun a b =>
    if ascending then decide (sort_key base sortBy a ≤ sort_key base sortBy b)
    else decide (sort_key base sortBy b ≤ sort_key base sortBy a)) l

/-- The dataset catalog `DATASET_MAPPING`. -/
def dataset_mapping : List (String × String) :=
  [("sponsored_display", "SD_AdvertisedProduct.xlsx"),
   ("sponsored_brands", "SB_SearchTerm_Daily.xlsx")]

/-- Dataset-name normalisation performed by `_load_dataframe`. -/
def normalize_dataset_name (s : String) : String :=
  strTrim ⟨s.data.map (fun c => if c.toLower == ' ' then '_' else c.toLower)⟩

/-- `_load_dataframe`: resolve the logical dataset name against the catalog
and read the backing file.  The filesystem/Excel layer is the oracle `fs`
from file name to frame or error (file-not-found / unreadable); loaded
column names are stripped.  The process-wide cache `_DATA_CACHE` is
populated once per name and read-only afterwards, so it does not change the
observable value and is elided. -/
def load_dataframe (fs : String → Except String Frame) (name : String) :
    Except String Frame :=
  match dataset_mapping.lookup (normalize_dataset_name name) with
  | none => .error ("Unknown dataset: " ++ name ++
      ". available: ['sponsored_display', 'sponsored_brands']")
  | some filename => (fs filename).map normalize_columns

/-- The frame-collection loop shared by the grouped computations: each
dataset is loaded inside `try/except`, a dataset that fails to load is
skipped, and a successfully loaded frame is post-processed by `g`. -/
def frames_of_loaded (g : String → Frame → Frame)
    (load : String → Except String Frame) (dataset_names : List String) : List Frame :=
  dataset_names.filterMap (fun name =>
    match load name with
    | .ok df => some (g name df)
    | .error _ => none)

/-- `_compute_campaign_metrics`'s frame collection: each loaded frame is
normalised and tagged with its `__campaign_type`. -/
def campaign_frames (load : String → Except String Frame)
    (dataset_names : List String) : List Frame :=
  frames_of_loaded (fun name df => setCol (normalize_columns df) "__campaign_type"
    (some (.str (campaign_type_for name)))) load dataset_names

/-- The frame collection of `_compute_search_term_metrics` and
`_compute_product_metrics`: loaded frames are normalised. -/
def loaded_frames (load : String → Except String Frame)
    (dataset_names : List String) : List Frame :=
  frames_of_loaded (fun _ df => normalize_columns df) load dataset_names

/-- The post-concatenation stage of `_compute_campaign_metrics`: dimension
resolution, grouping, per-group aggregation, sorting and truncation. -/
def campaign_result (df : Frame) (sortBy : String) (ascending : Bool)
    (limit : ℕ) : Except String (List CampaignMetrics) :=
  let nameCol := first_existing_column df.cols ["Campaign Name", "campaign_name", "Campaign"]
  let idCol := first_existing_column df.cols ["Campaign ID", "campaign_id"]
  if nameCol.isNone && idCol.isNone then .ok []
  else
    let groupKeys := idCol.toList ++ nameCol.toList ++
      (if df.cols.contains "__campaign_type" then ["__campaign_type"] else [])
    match build_entries (mk_campaign_metrics idCol nameCol groupKeys)
        (group_by df groupKeys) with
    | .error e => .error e
    | .ok results =>
      .ok ((sort_entries CampaignMetrics.base sortBy ascending results).take limit)

/-- `_compute_campaign_metrics`. -/
def compute_campaign_metrics (load : String → Except String Frame)
    (dataset_names : List String) (sortBy : String) (ascending : Bool)
    (limit : ℕ) : Except String (List CampaignMetrics) :=
  let frames := campaign_frames load dataset_names
  if frames.isEmpty then .ok []
  else campaign_result (concat_frames frames) sortBy ascending limit

/-- `SearchTermMetrics` (pydantic): base metrics plus search-term
dimensions. -/
structure SearchTermMetrics where
  search_term : String
  match_type : Option String
  campaign_id : Option String
  campaign_name : Option String
  ad_group_name : Option String
  base : BaseMetrics
deriving DecidableEq

/-- Construction + validation of one `SearchTermMetrics` row. -/
def mk_search_term_metrics (stCol : String) (mtCol idCol nameCol agCol : Option String)
    (keys : List String) (kv : List Cell) (b : BaseMetrics) :
    Except String SearchTermMetrics :=
  if validBase b then
    .ok { search_term := strOfKeyGet keys kv stCol,
          match_type := mtCol.map (strOfKeyGet keys kv),
          campaign_id := idCol.map (strOfKeyGet keys kv),
          campaign_name := nameCol.map (strOfKeyGet keys kv),
          ad_group_name := agCol.map (strOfKeyGet keys kv),
          base := b }
  else .error "validation error: base metrics out of range"

/-- The post-concatenation stage of `_compute_search_term_metrics`. -/
def search_term_result (df : Frame) (sortBy : String) (ascending : Bool)
    (limit : ℕ) : Except String (List SearchTermMetrics) :=
  match first_existing_column df.cols ["Search Term", "search_term", "Customer Search Term"] with
  | none => .ok []
  | some st =>
    let nameCol := first_existing_column df.cols ["Campaign Name", "campaign_name", "Campaign"]
    let idCol := first_existing_column df.cols ["Campaign ID", "campaign_id"]
    let agCol := first_existing_column df.cols ["Ad Group Name", "ad_group_name"]
    let mtCol := first_existing_column df.cols ["Match Type", "match_type"]
    let groupKeys := [st] ++ idCol.toList ++ nameCol.toList ++ agCol.toList ++ mtCol.toList
    match build_entries (mk_search_term_metrics st mtCol idCol nameCol agCol groupKeys)
        (group_by df groupKeys) with
    | .error e => .error e
    | .ok results =>
      .ok ((sort_entries SearchTermMetrics.base sortBy ascending results).take limit)

/-- `_compute_search_term_metrics`. -/
def compute_search_term_metrics (load : String → Except String Frame)
    (dataset_names : List String) (sortBy : String) (ascending : Bool)
    (limit : ℕ) : Except String (List SearchTermMetrics) :=
  let frames := loaded_frames load dataset_names
  if frames.isEmpty then .ok []
  else search_term_result (concat_frames frames) sortBy ascending limit

/-- `ProductMetrics` (pydantic): base metrics plus product dimensions. -/
structure ProductMetrics where
  asin : Option String
  sku : Option String
  product_name : Option String
  brand : Option String
  category : Option String
  campaign_id : Option String
  campaign_name : Option String
  base : BaseMetrics
deriving DecidableEq

/-- Construction + validation of one `ProductMetrics` row.  `brand` and
`category` are never group keys, so when those columns resolve the
`str(key_map.get(col))` lookup misses and yields the literal `"None"`. -/
def mk_product_metrics (asinCol skuCol pnCol brandCol catCol idCol nameCol : Option String)
    (keys : List String) (kv : List Cell) (b : BaseMetrics) :
    Except String ProductMetrics :=
  if validBase b then
    .ok { asin := asinCol.map (strOfKeyGet keys kv),
          sku := skuCol.map (strOfKeyGet keys kv),
          product_name := pnCol.map (strOfKeyGet keys kv),
          brand := brandCol.map (strOfKeyGet keys kv),
          category := catCol.map (strOfKeyGet keys kv),
          campaign_id := idCol.map (strOfKeyGet keys kv),
          campaign_name := nameCol.map (strOfKeyGet keys kv),
          base := b }
  else .error "validation error: base metrics out of range"

/-- The post-concatenation stage of `_compute_product_metrics`, including
the `__all` catch-all group used when no dimension column resolves. -/
def product_result (df : Frame) (sortBy : String) (ascending : Bool)
    (limit : ℕ) : Except String (List ProductMetrics) :=
  let asinCol := first_existing_column df.cols ["ASIN", "asin"]
    let skuCol := first_existing_column df.cols ["SKU", "sku"]
    let pnCol := first_existing_column df.cols ["Advertised ASIN", "Product Name", "product_name"]
    let brandCol := first_existing_column df.cols ["Brand", "brand"]
    let catCol := first_existing_column df.cols ["Category", "category"]
    let nameCol := first_existing_column df.cols ["Campaign Name", "campaign_name", "Campaign"]
    let idCol := first_existing_column df.cols ["Campaign ID", "campaign_id"]
    let groupKeys := asinCol.toList ++ skuCol.toList ++ pnCol.toList ++
      idCol.toList ++ nameCol.toList
    let dfk := if groupKeys.isEmpty then
        (setCol df "__all" (some (.num 1)), ["__all"])
      else (df, groupKeys)
  match build_entries
      (mk_product_metrics asinCol skuCol pnCol brandCol catCol idCol nameCol dfk.2)
      (group_by dfk.1 dfk.2) with
  | .error e => .error e
  | .ok results =>
    .ok ((sort_entries ProductMetrics.base sortBy ascending results).take limit)

/-- `_compute_product_metrics`. -/
def compute_product_metrics (load : String → Except String Frame)
    (dataset_names : List String) (sortBy : String) (ascending : Bool)
    (limit : ℕ) : Except String (List ProductMetrics) :=
  let frames := loaded_frames load dataset_names
  if frames.isEmpty then .ok []
  else product_result (concat_frames frames) sortBy ascending limit

/-- `AccountSummary` (pydantic): account-level base metrics plus entity
counts.  The optional report dates are carried separately in
`ReportMetadata` where the pipeline uses them. -/
structure AccountSummary where
  base : BaseMetrics
  total_campaigns : ℕ
  total_products : ℕ
  total_search_terms : ℕ
deriving DecidableEq

/-- `ReportMetadata`: the reporting date range.  The `generated_at` wall
clock timestamp is outside the embedding. -/
structure ReportMetadata where
  start_date : Option String
  end_date : Option String
deriving DecidableEq

/-- `MetricsBundle` as consumed by the insights stage: account summary plus
the per-entity metric lists (`extra = "allow"` admits additional slices,
which the insights stage never reads). -/
structure MetricsBundle where
  report_metadata : ReportMetadata
  account_summary : AccountSummary
  campaign_metrics : List CampaignMetrics
  search_term_metrics : List SearchTermMetrics
  product_metrics : List ProductMetrics
deriving DecidableEq

/-- `PerformanceOverview` of the insights schema. -/
structure PerformanceOverview where
  account_summary : AccountSummary
  key_trends : List String
  strategic_theme : Option String
deriving DecidableEq

/-- `CampaignInsight` of the insights schema. -/
structure CampaignInsight where
  campaign_id : Option String
  campaign_name : Option String
  rationale : String
  referenced_metrics : Option CampaignMetrics
deriving DecidableEq

/-- `SearchTermAction` of the insights schema. -/
structure SearchTermAction where
  search_term : String
  campaign_id : Option String
  campaign_name : Option String
  action_reason : String
  referenced_metrics : Option SearchTermMetrics
deriving DecidableEq

/-- `ProductInsight` of the insights schema. -/
structure ProductInsight where
  asin : Option String
  sku : Option String
  product_name : Option String
  insight_reason : String
  referenced_metrics : Option ProductMetrics
deriving DecidableEq

/-- `CampaignInsightsSection` of the insights schema. -/
structure CampaignInsightsSection where
  scale_candidates : List CampaignInsight
  optimization_needed : List CampaignInsight
  pause_candidates : List CampaignInsight
deriving DecidableEq

/-- `SearchTermActionsSection` of the insights schema. -/
structure SearchTermActionsSection where
  increase_bids : List SearchTermAction
  add_negative_keywords : List SearchTermAction
deriving DecidableEq

/-- `ProductInsightsSection` of the insights schema. -/
structure ProductInsightsSection where
  hero_products : List ProductInsight
  budget_drainers : List ProductInsight
deriving DecidableEq

/-- `InsightsReport` of the insights schema. -/
structure InsightsReport where
  performance_overview : PerformanceOverview
  campaign_insights : CampaignInsightsSection
  search_term_actions : SearchTermActionsSection
  product_insights : ProductInsightsSection
  budget_reallocation : List String
  priority_actions : List String
  risk_flags : List String
  natural_language_summary : String
deriving DecidableEq

/-- `_mock_insights_report`: the deterministic fallback report derived from
the metrics bundle, reproduced verbatim from the source. -/
def mock_insights_report (b : MetricsBundle) : InsightsReport :=
  { performance_overview :=
      { account_summary := b.account_summary,
        key_trends :=
          ["Mocked overview: metrics computed successfully.",
           "Replace mock mode with a real Claude API key for production insights."],
        strategic_theme := some "Mock evaluation run" },
    campaign_insights :=
      { scale_candidates := (b.campaign_metrics.take 3).map (fun c =>
          { campaign_id := c.campaign_id, campaign_name := c.campaign_name,
            rationale := "Mock: candidate for scaling based on placeholder logic.",
            referenced_metrics := some c }),
        optimization_needed := [], pause_candidates := [] },
    search_term_actions :=
      { increase_bids := (b.search_term_metrics.take 3).map (fun s =>
          { search_term := s.search_term, campaign_id := s.campaign_id,
            campaign_name := s.campaign_name,
            action_reason := "Mock: consider increasing bids for testing purposes.",
            referenced_metrics := some s }),
        add_negative_keywords := [] },
    product_insights :=
      { hero_products := (b.product_metrics.take 3).map (fun p =>
          { asin := p.asin, sku := p.sku, product_name := p.product_name,
            insight_reason := "Mock: flagged as a hero product for demonstration.",
            referenced_metrics := some p }),
        budget_drainers := [] },
    budget_reallocation :=
      ["Mock suggestion: re-evaluate budget allocation once real insights are enabled."],
    priority_actions :=
      ["Verify metric correctness.", "Connect to live Amazon Ads API.",
       "Enable Claude API key for production insights."],
    risk_flags := ["Running in mock mode: insights are placeholders only."],
    natural_language_summary := String.intercalate "\n"
      ["This is a MOCK executive summary generated without an LLM.",
       "The metrics pipeline and supervisor orchestration executed successfully.",
       "Configure ANTTHROPIC_API_KEY to enable real Claude-powered insights."] }

/-- A Python value stored under the `metrics_bundle` state key, as the
insights stage type-checks it: a `MetricsBundle` instance, a dict (embedded
by the outcome of `MetricsBundle(**d)` — `none` when that validation
raises), or a value of any other type. -/
inductive MBValue where
  | bundle (b : MetricsBundle)
  | dict (parse : Option MetricsBundle)
  | other
deriving DecidableEq

/-- `SupervisorState`: the shared workflow state record. -/
structure WorkflowState where
  user_request : String
  start_date : Option String
  end_date : Option String
  metrics_bundle : Option MBValue
  insights_report : Option InsightsReport
deriving DecidableEq

/-- `initialize_state`. -/
def initialize_state (user_request : String)
    (start_date end_date : Option String) : WorkflowState :=
  { user_request := user_request, start_date := start_date, end_date := end_date,
    metrics_bundle := none, insights_report := none }

/-- Python exception classes relevant to the insights stage. -/
inductive PyError where
  | valueError (msg : String)
  | typeError (msg : String)
  | validationError (msg : String)
  | runtimeError (msg : String)
  | timeoutError (msg : String)
  | otherError (msg : String)
deriving DecidableEq

/-- `except RuntimeError` discrimination. -/
def PyError.isRuntimeError : PyError → Bool
  | .runtimeError _ => true
  | _ => false

/-- The `metrics_bundle` type check at the top of `run_insights_agent`:
a dict is converted by `MetricsBundle(**d)` (pydantic `ValidationError`,
a `ValueError` subclass, on failure); any value that is neither a dict nor
a `MetricsBundle` raises `TypeError`. -/
def resolveBundle : MBValue → Except PyError MetricsBundle
  | .bundle b => .ok b
  | .dict (some b) => .ok b
  | .dict none => .error (.validationError "MetricsBundle(**metrics_bundle) failed validation")
  | .other => .error (.typeError "metrics_bundle must be a MetricsBundle or a compatible dict")

/-- `run_insights_agent`.  The whole `get_insights_llm(); ...;
chain.invoke(...)` block (prompt assembly, deterministic bundle
summarisation and the external model call) is the oracle `llm`; its result
is the structured report or the raised exception.  Only `RuntimeError` is
caught and replaced by the deterministic mock report; every other exception
propagates. -/
def run_insights_agent (llm : MetricsBundle → Except PyError InsightsReport)
    (state : WorkflowState) : Except PyError WorkflowState :=
  match state.metrics_bundle with
  | none => .error (.valueError
      "metrics_bundle is missing from state. The Metrics Agent must run before the Insights Agent.")
  | some mv =>
    match resolveBundle mv with
    | .error e => .error e
    | .ok b =>
      match llm b with
      | .ok report => .ok { state with insights_report := some report }
      | .error e =>
        if e.isRuntimeError then
          .ok { state with insights_report := some (mock_insights_report b) }
        else .error e

/-- The deterministic fallback branch of `decide_next_node` (the
`except Exception` handler). -/
def decide_fallback (state : WorkflowState) : String :=
  if state.metrics_bundle.isNone then "metrics_agent"
  else if state.insights_report.isNone then "insights_agent"
  else "end"

/-- `decide_next_node`.  The routing result is the decision string or the
exception the router lets escape.  Two oracle stages mirror the source:
`getLLM` is the `get_metrics_llm()` call made *before* the `try` block —
when it raises (`RuntimeError` for a missing `ANTHROPIC_API_KEY`) the
exception propagates out of the router uncaught and no decision is made;
`invoke` is the outcome of the `chain.invoke` / structured-output code
inside the `try` (`none` when that path raises, `some r` for
`DynamicRouteQuery.next_node = r`).  A response outside `valid_options`
(registered agent names plus `"end"`) raises `ValueError`, which the
`except Exception` handler turns into the deterministic fallback. -/
def decide_next_node (registered : List String) (getLLM : Except PyError Unit)
    (invoke : Option String) (state : WorkflowState) : Except PyError String :=
  match getLLM with
  | .error e => .error e
  | .ok _ =>
    let validOptions := registered ++ ["end"]
    match invoke with
    | some r => .ok (if validOptions.contains r then r else decide_fallback state)
    | none => .ok (decide_fallback state)

/-- The target table of the conditional edges that `build_workflow` hangs on
the supervisor node. -/
def workflow_edge_targets : List String :=
  ["metrics_agent", "insights_agent", "human", "end"]

/-- Return value of `get_dataset_schema`: the schema dict, or the dict
`{"error": msg}`.  (The pandas dtype strings are outside the tabular
embedding and omitted.) -/
inductive SchemaResult where
  | info (columns : List String) (rowCount : ℕ)
  | err (error : String)
deriving DecidableEq

/-- `get_dataset_schema`: the `try/except Exception` wrapper around
`_load_dataframe`. -/
def get_dataset_schema (fs : String → Except String Frame) (name : String) :
    SchemaResult :=
  match load_dataframe fs name with
  | .ok df => .info df.cols df.rows.length
  | .error e => .err e

/-- Return value of `get_dataset_sample`: the first-n records, or the
singleton list `[{"error": msg}]`. -/
inductive SampleResult where
  | records (rows : List (List Cell))
  | err (error : String)
deriving DecidableEq

/-- `get_dataset_sample`: the `try/except Exception` wrapper around
`_load_dataframe` returning `df.head(n)`. -/
def get_dataset_sample (fs : String → Except String Frame) (name : String)
    (n : ℕ) : SampleResult :=
  match load_dataframe fs name with
  | .ok df => .records (df.rows.take n)
  | .error e => .err e

/-! Concrete inputs used by witnesses and counterexamples. -/

/-- A one-row table on which every required numeric column resolves. -/
def frameW1 : Frame :=
  ⟨["Spend", "Sales", "Orders", "Impressions", "Clicks"],
   [[some (.num 10), some (.num 50), some (.num 1), some (.num 100), some (.num 10)]]⟩

/-- The aggregate of `frameW1`. -/
def baseW1 : BaseMetrics :=
  ⟨10, 50, 1, 100, 10, 1/10, 1/10, 1, 1/5, 5⟩

/-- Scenario B table: two rows for campaign `"C1"`. -/
def frameC7 : Frame :=
  ⟨["Spend", "Sales", "Orders", "Impressions", "Clicks", "Campaign ID"],
   [[some (.num 10), some (.num 50), some (.num 1), some (.num 100), some (.num 10), some (.str "C1")],
    [some (.num 20), some (.num 0), some (.num 0), some (.num 100), some (.num 0), some (.str "C1")]]⟩

/-- Filesystem oracle serving `frameC7` as the sponsored-display report. -/
def fsC7 : String → Except String Frame := fun fname =>
  if fname = "SD_AdvertisedProduct.xlsx" then .ok frameC7
  else .error ("File not found: " ++ fname)

/-- The single entity produced from `frameC7`. -/
def entryC7 : CampaignMetrics :=
  ⟨some "C1", none, some .SD, ⟨30, 50, 1, 200, 10, 1/20, 1/10, 3, 3/5, 5/3⟩⟩


/-- `TypeError` discrimination. -/
def PyError.isTypeError : PyError → Bool
  | .typeError _ => true
  | _ => false

/-- Whether a stage outcome is a raised `TypeError`. -/
def raisedTypeError (r : Except PyError WorkflowState) : Bool :=
  match r with
  | .error e => e.isTypeError
  | .ok _ => false

/-- A small concrete metrics bundle. -/
def bundleW : MetricsBundle :=
  ⟨⟨none, none⟩, ⟨baseW1, 1, 1, 1⟩, [], [], []⟩

/-- A workflow state holding `bundleW` and no insights report. -/
def stateWithBundle : WorkflowState :=
  ⟨"req", none, none, some (.bundle bundleW), none⟩

/-- A workflow state holding both artifacts. -/
def stateBoth : WorkflowState :=
  ⟨"req", none, none, some (.bundle bundleW), some (mock_insights_report bundleW)⟩

/-- A workflow state whose `metrics_bundle` is a dict that fails
`MetricsBundle(**d)` validation. -/
def stateBadDict : WorkflowState :=
  ⟨"req", none, none, some (.dict none), none⟩

/-- A reasoning-collaborator oracle that succeeds. -/
def llmOk : MetricsBundle → Except PyError InsightsReport :=
  fun b => .ok (mock_insights_report b)

/-- A reasoning-collaborator oracle that times out. -/
def llmTimeout : MetricsBundle → Except PyError InsightsReport :=
  fun _ => .error (.timeoutError "Request timed out.")

/-- A reasoning-collaborator oracle that raises `RuntimeError` (the
missing-API-key path of `get_insights_llm`). -/
def llmNoKey : MetricsBundle → Except PyError InsightsReport :=
  fun _ => .error (.runtimeError
    "ANTHROPIC_API_KEY environment variable is not set. Set it in .env before running.")

/-- A filesystem oracle on which every file read fails. -/
def fsMissing : String → Except String Frame :=
  fun fname => .error ("File not found: " ++ fname)


/-- A one-row table with only the five numeric columns (no dimension
column resolves). -/
def frameC5 : Frame :=
  ⟨["Spend", "Sales", "Orders", "Impressions", "Clicks"],
   [[some (.num 1), some (.num 2), some (.num 1), some (.num 10), some (.num 2)]]⟩

/-- Filesystem oracle serving `frameC5` as the sponsored-display report. -/
def fsC5 : String → Except String Frame := fun fname =>
  if fname = "SD_AdvertisedProduct.xlsx" then .ok frameC5
  else .error ("File not found: " ++ fname)

/-- The aggregate of `frameC5`. -/
def baseC5 : BaseMetrics :=
  ⟨1, 2, 1, 10, 2, 1/5, 1/2, 1/2, 1/2, 2⟩


/-- A sponsored-display table without impressions/clicks columns: its
required numeric columns do not resolve on their own. -/
def frameC4sd : Frame :=
  ⟨["Spend", "Sales", "Orders"], [[some (.num 1), some (.num 2), some (.num 1)]]⟩

/-- A sponsored-brands table without spend/sales/orders columns: its
required numeric columns do not resolve on their own. -/
def frameC4sb : Frame :=
  ⟨["Impressions", "Clicks", "Campaign ID"],
   [[some (.num 100), some (.num 10), some (.str "X")]]⟩

/-- Filesystem oracle serving the two partial tables. -/
def fsC4 : String → Except String Frame := fun fname =>
  if fname = "SD_AdvertisedProduct.xlsx" then .ok frameC4sd
  else if fname = "SB_SearchTerm_Daily.xlsx" then .ok frameC4sb
  else .error ("File not found: " ++ fname)


/-- Proof-side view of one iteration of the per-group loop: `none` when the
group is skipped by the `except ValueError` handler, otherwise the result
of the validated entity construction. -/
def outcome {α : Type} (mk : List Cell → BaseMetrics → Except String α)
    (g : List Cell × Frame) : Option (Except String α) :=
  match aggregate_base_metrics g.2 with
  | .error _ => none
  | .ok b => some (mk g.1 b)

/-- Proof-side folding of the per-group loop over its outcome list. -/
def collect {α : Type} : List (Option (Except String α)) → Except String (List α)
  | [] => .ok []
  | none :: t => collect t
  | some (.error e) :: _ => .error e
  | some (.ok x) :: t =>
    match collect t with
    | .error e => .error e
    | .ok xs => .ok (x :: xs)


/-- Scenario-B table with its two rows swapped. -/
def frameC7p : Frame :=
  ⟨["Spend", "Sales", "Orders", "Impressions", "Clicks", "Campaign ID"],
   [[some (.num 20), some (.num 0), some (.num 0), some (.num 100), some (.num 0), some (.str "C1")],
    [some (.num 10), some (.num 50), some (.num 1), some (.num 100), some (.num 10), some (.str "C1")]]⟩

/-- Loader oracle serving `frameC7` for every dataset name. -/
def loadW8 : String → Except String Frame := fun _ => .ok frameC7

/-- Loader oracle serving the row-swapped `frameC7p`. -/
def loadW8p : String → Except String Frame := fun _ => .ok frameC7p

/-! Theorems. -/

/-- **C1.** Every group aggregate ties each derived ratio to the zero-safe
quotient of its base fields (`ctr = clicks/impressions`, `cvr =
orders/clicks`, `cpc = spend/clicks`, `acos = spend/sales`, `roas =
sales/spend`), and a zero denominator gives a ratio of `0`.  The whole
computation is a total function into `ℚ`, so no exception, infinity or NaN
can arise. -/
theorem c1_derived_ratios_zero_safe (f : Frame) (b : BaseMetrics)
    (h : aggregate_base_metrics f = .ok b) :
    b.ctr = safe_div (b.clicks : ℚ) (b.impressions : ℚ) ∧
    b.cvr = safe_div (b.orders : ℚ) (b.clicks : ℚ) ∧
    b.cpc = safe_div b.spend (b.clicks : ℚ) ∧
    b.acos = safe_div b.spend b.sales ∧
    b.roas = safe_div b.sales b.spend ∧
    (b.impressions = 0 → b.ctr = 0) ∧
    (b.clicks = 0 → b.cvr = 0 ∧ b.cpc = 0) ∧
    (b.sales = 0 → b.acos = 0) ∧
    (b.spend = 0 → b.roas = 0) := by
  unfold aggregate_base_metrics at h
  cases hx : extract_numeric_columns f.cols with
  | error e => rw [hx] at h; cases h
  | ok t =>
    obtain ⟨sc, slc, oc, ic, cc⟩ := t
    rw [hx] at h
    simp only [Except.ok.injEq] at h
    subst h
    refine ⟨rfl, rfl, rfl, rfl, rfl, ?_, ?_, ?_, ?_⟩
    · intro h0
      simp only at h0 ⊢
      rw [h0]
      simp [safe_div]
    · intro h0
      simp only at h0 ⊢
      rw [h0]
      simp [safe_div]
    · intro h0
      simp only at h0 ⊢
      rw [h0]
      simp [safe_div]
    · intro h0
      simp only at h0 ⊢
      rw [h0]
      simp [safe_div]

/-- Witness for C1 at the concrete table `frameW1`. -/
theorem c1_derived_ratios_zero_safe_witness :
    baseW1.ctr = safe_div (baseW1.clicks : ℚ) (baseW1.impressions : ℚ) ∧
    baseW1.cvr = safe_div (baseW1.orders : ℚ) (baseW1.clicks : ℚ) ∧
    baseW1.cpc = safe_div baseW1.spend (baseW1.clicks : ℚ) ∧
    baseW1.acos = safe_div baseW1.spend baseW1.sales ∧
    baseW1.roas = safe_div baseW1.sales baseW1.spend ∧
    (baseW1.impressions = 0 → baseW1.ctr = 0) ∧
    (baseW1.clicks = 0 → baseW1.cvr = 0 ∧ baseW1.cpc = 0) ∧
    (baseW1.sales = 0 → baseW1.acos = 0) ∧
    (baseW1.spend = 0 → baseW1.roas = 0) :=
  c1_derived_ratios_zero_safe frameW1 baseW1 (by decide)

/-- **C7.** Scenario B: the two-row table for campaign `"C1"` aggregates to
exactly one entity with spend 30, sales 50, orders 1, impressions 200,
clicks 10, ctr 1/20, cvr 1/10, cpc 3, acos 3/5, roas 50/30. -/
theorem c7_scenario_b :
    compute_campaign_metrics (load_dataframe fsC7) ["sponsored_display"]
      "spend" false 50 = .ok [entryC7] := by decide

/-- **C2 (amended).** When the `get_metrics_llm()` call made before the
`try` block succeeds and the advisory invocation inside the `try` fails or
returns a name outside the valid options, the routing decision is the
deterministic rule of the Workflow State: no metrics bundle →
`"metrics_agent"`, else no insights report → `"insights_agent"`, else
`"end"`.  When `get_metrics_llm()` itself raises (missing
`ANTHROPIC_API_KEY`) the router re-raises that exception uncaught and makes
no decision; a valid advisory response is returned as-is (the
counterexample). -/
theorem c2_deterministic_fallback_routing (registered : List String)
    (invoke : Option String) (state : WorkflowState)
    (h : invoke = none ∨ ∃ r, invoke = some r ∧ (registered ++ ["end"]).contains r = false) :
    decide_next_node registered (.ok ()) invoke state =
      .ok (if state.metrics_bundle.isNone then "metrics_agent"
           else if state.insights_report.isNone then "insights_agent"
           else "end") ∧
    ∀ e, decide_next_node registered (.error e) invoke state = .error e := by
  refine ⟨?_, fun e => rfl⟩
  rcases h with h | ⟨r, hr, hv⟩
  · subst h; rfl
  · subst hr
    show Except.ok (if (registered ++ ["end"]).contains r = true then r
      else decide_fallback state) = _
    rw [hv]
    simp [decide_fallback]

/-- Witness for C2: on the freshly initialised state the in-try failure
yields the metrics stage, while a failing `get_metrics_llm()` re-raises the
missing-key `RuntimeError`. -/
theorem c2_deterministic_fallback_routing_witness :
    decide_next_node [] (.ok ()) none
      (initialize_state "Generate an Amazon Ads performance report." none none) =
      .ok (if (initialize_state "Generate an Amazon Ads performance report." none none).metrics_bundle.isNone
       then "metrics_agent"
       else if (initialize_state "Generate an Amazon Ads performance report." none none).insights_report.isNone
       then "insights_agent" else "end") ∧
    decide_next_node [] (.error (.runtimeError
        "ANTHROPIC_API_KEY environment variable is not set. Set it in .env before running."))
      none (initialize_state "Generate an Amazon Ads performance report." none none) =
      .error (.runtimeError
        "ANTHROPIC_API_KEY environment variable is not set. Set it in .env before running.") :=
  ⟨(c2_deterministic_fallback_routing [] none _ (Or.inl rfl)).1,
   (c2_deterministic_fallback_routing [] none _ (Or.inl rfl)).2 _⟩

/-- Counterexample to C2 as stated: on the initial state (no metrics
bundle, no insights report) an advisory response of `"end"` — valid, since
`"end"` is always among the options — is returned as-is, so the decision is
not the metrics stage. -/
theorem c2_llm_override_counterexample :
    decide_next_node [] (.ok ()) (some "end")
      (initialize_state "Generate an Amazon Ads performance report." none none) ≠
      .ok "metrics_agent" := by decide

/-- **C3 (amended).** The decision is a deterministic function of the
Workflow State *and the advisory outcome*: with the advisory failed the
decision is the fallback rule, which depends only on the state, always lies
in the workflow's conditional-edge target set, and is `"end"` — never a
stage whose output is present — once both artifacts exist; a valid advisory
response is returned unchanged. -/
theorem c3_fallback_deterministic_and_valid (state : WorkflowState) :
    (∀ registered : List String,
      decide_next_node registered (.ok ()) none state = .ok (decide_fallback state)) ∧
    (∀ registered : List String, ∀ r : String,
      (registered ++ ["end"]).contains r = true →
      decide_next_node registered (.ok ()) (some r) state = .ok r) ∧
    decide_fallback state ∈ workflow_edge_targets ∧
    (state.metrics_bundle.isSome = true → state.insights_report.isSome = true →
      decide_fallback state = "end") := by
  refine ⟨fun _ => rfl, ?_, ?_, ?_⟩
  · intro regs r hr
    show Except.ok (if (regs ++ ["end"]).contains r = true then r
      else decide_fallback state) = .ok r
    rw [hr]
    simp
  · unfold decide_fallback workflow_edge_targets
    split
    · simp
    · split <;> simp
  · intro h1 h2
    obtain ⟨mb, hmb⟩ := Option.isSome_iff_exists.mp h1
    obtain ⟨ir, hir⟩ := Option.isSome_iff_exists.mp h2
    simp [decide_fallback, hmb, hir]

/-- Witness for C3 at a state holding both artifacts. -/
theorem c3_fallback_deterministic_and_valid_witness :
    decide_next_node ["metrics_agent"] (.ok ()) none stateBoth =
      .ok (decide_fallback stateBoth) ∧
    decide_fallback stateBoth = "end" :=
  ⟨(c3_fallback_deterministic_and_valid stateBoth).1 ["metrics_agent"],
   (c3_fallback_deterministic_and_valid stateBoth).2.2.2 (by decide) (by decide)⟩

/-- Counterexample to C3 as stated: two calls on the same Workflow State
(one where the advisory answered `"end"`, one where it failed) return
different decisions, so the decision is not a function of the state
alone. -/
theorem c3_two_calls_differ_counterexample :
    decide_next_node [] (.ok ()) (some "end")
        (initialize_state "Generate an Amazon Ads performance report." none none) ≠
      decide_next_node [] (.ok ()) none
        (initialize_state "Generate an Amazon Ads performance report." none none) := by decide

/-- **C10.** The dataset-inspection tools are total: whenever loading fails
(unregistered name, missing or unreadable file — every failure of
`_load_dataframe` surfaces as an `Except.error`), `get_dataset_schema` and
`get_dataset_sample` return the error-carrying value built from that
failure's message instead of raising. -/
theorem c10_inspection_tools_never_raise (fs : String → Except String Frame)
    (name : String) (n : ℕ) (e : String)
    (h : load_dataframe fs name = .error e) :
    get_dataset_schema fs name = .err e ∧
    get_dataset_sample fs name n = .err e := by
  unfold get_dataset_schema get_dataset_sample
  rw [h]
  exact ⟨rfl, rfl⟩

/-- Witness for C10 at an unregistered dataset name. -/
theorem c10_inspection_tools_never_raise_witness :
    get_dataset_schema fsMissing "bogus" =
      .err "Unknown dataset: bogus. available: ['sponsored_display', 'sponsored_brands']" ∧
    get_dataset_sample fsMissing "bogus" 3 =
      .err "Unknown dataset: bogus. available: ['sponsored_display', 'sponsored_brands']" :=
  c10_inspection_tools_never_raise fsMissing "bogus" 3 _ (by decide)

/-- **C9 (amended).** The insights stage validates its input: an absent
`metrics_bundle` raises `ValueError`; a present value that is neither a
dict nor a `MetricsBundle` raises `TypeError`; a dict that fails
`MetricsBundle(**d)` raises the pydantic `ValidationError` (a `ValueError`
subclass, not a `TypeError`).  Hence a successful run — the only way
`insights_report` gets set — implies a valid metrics bundle was resolved
from the state. -/
theorem c9_input_validation (llm : MetricsBundle → Except PyError InsightsReport)
    (state : WorkflowState) :
    (state.metrics_bundle = none →
      run_insights_agent llm state = .error (.valueError
        "metrics_bundle is missing from state. The Metrics Agent must run before the Insights Agent.")) ∧
    (state.metrics_bundle = some .other →
      run_insights_agent llm state = .error (.typeError
        "metrics_bundle must be a MetricsBundle or a compatible dict")) ∧
    (state.metrics_bundle = some (.dict none) →
      run_insights_agent llm state = .error (.validationError
        "MetricsBundle(**metrics_bundle) failed validation")) ∧
    (∀ s', run_insights_agent llm state = .ok s' →
      (∃ mv b, state.metrics_bundle = some mv ∧ resolveBundle mv = .ok b) ∧
      s'.insights_report.isSome = true) := by
  refine ⟨?_, ?_, ?_, ?_⟩
  · intro h; simp [run_insights_agent, h]
  · intro h; simp [run_insights_agent, h, resolveBundle]
  · intro h; simp [run_insights_agent, h, resolveBundle]
  · intro s' h
    cases hmb : state.metrics_bundle with
    | none => simp [run_insights_agent, hmb] at h
    | some mv =>
      cases hrb : resolveBundle mv with
      | error e => simp [run_insights_agent, hmb, hrb] at h
      | ok b =>
        refine ⟨⟨mv, b, rfl, hrb⟩, ?_⟩
        cases hl : llm b with
        | ok report =>
          simp only [run_insights_agent, hmb, hrb, hl, Except.ok.injEq] at h
          subst h; rfl
        | error e =>
          by_cases hre : e.isRuntimeError = true
          · simp only [run_insights_agent, hmb, hrb, hl, hre, if_true, Except.ok.injEq] at h
            subst h; rfl
          · simp [run_insights_agent, hmb, hrb, hl, hre] at h

/-- Witness for C9: the missing-bundle case raises `ValueError`. -/
theorem c9_input_validation_witness :
    run_insights_agent llmOk (initialize_state "req" none none) = .error (.valueError
      "metrics_bundle is missing from state. The Metrics Agent must run before the Insights Agent.") :=
  (c9_input_validation llmOk (initialize_state "req" none none)).1 rfl

/-- Counterexample to C9 as stated: a dict that fails conversion makes the
stage raise, but the raised exception is the pydantic `ValidationError`,
not a `TypeError` as the claim says. -/
theorem c9_not_type_error_counterexample :
    (run_insights_agent llmOk stateBadDict).isOk = false ∧
    raisedTypeError (run_insights_agent llmOk stateBadDict) = false := by decide

/-- **C6 (amended).** When the reasoning collaborator raises
`RuntimeError` (notably the missing-API-key path — the only exception class
the stage catches), the stage substitutes the deterministic mock report
derived from the metrics bundle: the state comes back with
`insights_report` set, the report text marks itself as a mock/fallback
result, and the supervisor's deterministic fallback then reaches the
terminal decision.  (Other failure classes propagate — see the
counterexample.) -/
theorem c6_runtime_error_fallback (llm : MetricsBundle → Except PyError InsightsReport)
    (state : WorkflowState) (mv : MBValue) (b : MetricsBundle) (msg : String)
    (hmv : state.metrics_bundle = some mv)
    (hb : resolveBundle mv = .ok b)
    (hllm : llm b = .error (.runtimeError msg)) :
    run_insights_agent llm state =
      .ok { state with insights_report := some (mock_insights_report b) } ∧
    strContains (mock_insights_report b).natural_language_summary "MOCK" = true ∧
    "Running in mock mode: insights are placeholders only." ∈
      (mock_insights_report b).risk_flags ∧
    decide_fallback { state with insights_report := some (mock_insights_report b) } = "end" := by
  refine ⟨?_, ?_, ?_, ?_⟩
  · simp [run_insights_agent, hmv, hb, hllm, PyError.isRuntimeError]
  · rfl
  · simp [mock_insights_report]
  · simp [decide_fallback, hmv]

/-- Witness for C6: the missing-API-key `RuntimeError` on a concrete state
yields the mock report and the terminal fallback decision. -/
theorem c6_runtime_error_fallback_witness :
    run_insights_agent llmNoKey stateWithBundle =
      .ok { stateWithBundle with insights_report := some (mock_insights_report bundleW) } ∧
    strContains (mock_insights_report bundleW).natural_language_summary "MOCK" = true ∧
    "Running in mock mode: insights are placeholders only." ∈
      (mock_insights_report bundleW).risk_flags ∧
    decide_fallback { stateWithBundle with insights_report := some (mock_insights_report bundleW) } = "end" :=
  c6_runtime_error_fallback llmNoKey stateWithBundle (.bundle bundleW) bundleW _ rfl rfl rfl

/-- Counterexample to C6 as stated: a collaborator timeout is not caught —
the stage run raises instead of substituting the fallback report, because
the code catches only `RuntimeError`. -/
theorem c6_timeout_fatal_counterexample :
    run_insights_agent llmTimeout stateWithBundle =
      .error (.timeoutError "Request timed out.") := by decide

/-! Helper lemmas about the tabular embedding. -/

/-- A name absent from `l` is found at position `l.length` after appending. -/
theorem idxOf?_append_self (l : List String) (c : String) (h : idxOf? c l = none) :
    idxOf? c (l ++ [c]) = some l.length := by
  induction l with
  | nil => simp [idxOf?]
  | cons x t ih =>
    by_cases hx : x = c
    · simp [idxOf?, hx] at h
    · cases ht : idxOf? c t with
      | none => simp [List.cons_append, idxOf?, hx, ih ht]
      | some i => simp [idxOf?, hx, ht] at h

/-- A found index is within bounds. -/
theorem idxOf?_lt_length (l : List String) (c : String) (i : ℕ)
    (h : idxOf? c l = some i) : i < l.length := by
  induction l generalizing i with
  | nil => cases h
  | cons x t ih =>
    by_cases hx : x = c
    · simp [idxOf?, hx] at h
      simp [← h]
    · cases ht : idxOf? c t with
      | none => simp [idxOf?, hx, ht] at h
      | some j =>
        simp [idxOf?, hx, ht] at h
        have hj := ih j ht
        simp only [List.length_cons]
        omega

/-- Every row of a concatenated frame is as long as its column list. -/
theorem concat_frames_row_length (fs : List Frame) :
    ∀ r ∈ (concat_frames fs).rows, r.length = (concat_frames fs).cols.length := by
  intro r hr
  unfold concat_frames at hr ⊢
  simp only [List.mem_flatMap, List.mem_map] at hr
  obtain ⟨f, _, r0, _, hrw⟩ := hr
  subst hrw
  simp

/-- After `setCol`, reading back the written column yields the written
value on every row of the right length. -/
theorem getCell_setCol_self (f : Frame) (c : String) (v : Cell)
    (hlen : ∀ r ∈ f.rows, r.length = f.cols.length) :
    ∀ r ∈ (setCol f c v).rows, getCell (setCol f c v).cols r c = v := by
  intro r hr
  cases hidx : idxOf? c f.cols with
  | none =>
    simp only [setCol, hidx, List.mem_map] at hr
    obtain ⟨r0, hr0, hrw⟩ := hr
    subst hrw
    simp only [getCell, setCol, hidx, idxOf?_append_self _ _ hidx]
    rw [List.getD_eq_getElem?_getD, ← hlen r0 hr0, List.getElem?_concat_length]
    rfl
  | some i =>
    simp only [setCol, hidx, List.mem_map] at hr
    obtain ⟨r0, hr0, hrw⟩ := hr
    subst hrw
    simp only [getCell, setCol, hidx]
    rw [List.getD_eq_getElem?_getD]
    have hi : i < r0.length := by
      rw [hlen r0 hr0]
      exact idxOf?_lt_length _ _ _ hidx
    simp [List.getElem?_set_self hi]

/-- Deduplicating a nonempty constant list yields the singleton. -/
theorem dedup_of_const {α : Type} [DecidableEq α] (l : List α) (a : α)
    (hne : l ≠ []) (h : ∀ x ∈ l, x = a) : l.dedup = [a] := by
  induction l with
  | nil => cases hne rfl
  | cons x t ih =>
    have hx : x = a := h x (by simp)
    subst hx
    cases t with
    | nil => simp
    | cons y u =>
      have ht : (y :: u).dedup = [x] := by
        refine ih (by simp) ?_
        intro z hz
        exact h z (by simp [hz])
      rw [List.dedup_cons_of_mem]
      · exact ht
      · have hy : y = x := h y (by simp)
        subst hy
        have : y ∈ (y :: u).dedup := by rw [ht]; simp
        exact List.mem_dedup.mp this

/-- When every row carries the same key, grouping yields one group holding
the whole frame. -/
theorem group_by_const (f : Frame) (keys : List String) (k : List Cell)
    (hne : f.rows ≠ []) (hk : ∀ r ∈ f.rows, keyOf f.cols keys r = k) :
    group_by f keys = [(k, f)] := by
  unfold group_by
  have hmap : ∀ x ∈ f.rows.map (keyOf f.cols keys), x = k := by
    intro x hx
    obtain ⟨r, hr, hrw⟩ := List.mem_map.mp hx
    subst hrw
    exact hk r hr
  have hnem : f.rows.map (keyOf f.cols keys) ≠ [] := by
    intro hcon
    exact hne (List.map_eq_nil_iff.mp hcon)
  rw [dedup_of_const _ _ hnem hmap]
  have hfil : f.rows.filter (fun r => decide (keyOf f.cols keys r = k)) = f.rows :=
    List.filter_eq_self.mpr (fun r hr => by simp [hk r hr])
  simp [hfil]

/-- Every group's frame keeps the parent frame's columns. -/
theorem group_by_cols (f : Frame) (keys : List String) :
    ∀ g ∈ group_by f keys, g.2.cols = f.cols := by
  intro g hg
  unfold group_by at hg
  obtain ⟨k, _, hrw⟩ := List.mem_map.mp hg
  subst hrw
  rfl

/-- If aggregation fails on every group, the per-group loop yields the
empty result (each group is skipped by the `except ValueError` handler). -/
theorem build_entries_all_skip {α : Type} (mk : List Cell → BaseMetrics → Except String α)
    (gs : List (List Cell × Frame))
    (h : ∀ g ∈ gs, (aggregate_base_metrics g.2).isOk = false) :
    build_entries mk gs = .ok [] := by
  induction gs with
  | nil => rfl
  | cons g rest ih =>
    have hg := h g (by simp)
    unfold build_entries
    cases hagg : aggregate_base_metrics g.2 with
    | error e => exact ih (fun g' hg' => h g' (by simp [hg']))
    | ok b => rw [hagg] at hg; cases hg

/-- Appending a column whose key matches no candidate does not change
column resolution. -/
theorem fec_append (cols : List String) (x : String) (cands : List String)
    (h : ∀ cand ∈ cands, decide (canonKey x = canonKey cand) = false) :
    first_existing_column (cols ++ [x]) cands = first_existing_column cols cands := by
  induction cands with
  | nil => rfl
  | cons cand rest ih =>
    have hc := h cand (by simp)
    have hfil : (cols ++ [x]).filter (fun c => decide (canonKey c = canonKey cand)) =
        cols.filter (fun c => decide (canonKey c = canonKey cand)) := by
      rw [List.filter_append]
      simp [hc]
    unfold first_existing_column
    simp only [List.findSome?_cons, hfil]
    cases hl : (cols.filter (fun c => decide (canonKey c = canonKey cand))).getLast? with
    | some y => rfl
    | none => exact ih (fun c hc2 => h c (by simp [hc2]))

/-- Adding the `__all` helper column does not change numeric-column
resolution. -/
theorem extract_append_all (cols : List String) :
    extract_numeric_columns (cols ++ ["__all"]) = extract_numeric_columns cols := by
  unfold extract_numeric_columns
  rw [fec_append cols "__all" ["Spend", "spend"] (by decide),
      fec_append cols "__all" ["Sales", "sales", "Revenue", "revenue",
        "14 Day Total Sales (₹)", "14 Day Total Sales – (Click)"] (by decide),
      fec_append cols "__all" ["Orders", "orders", "Purchases",
        "14 Day Total Orders (#)", "14 Day Total Orders (#) – (Click)"] (by decide),
      fec_append cols "__all" ["Impressions", "impressions"] (by decide),
      fec_append cols "__all" ["Clicks", "clicks"] (by decide)]

/-- **C5 (amended).** On an input whose required numeric columns resolve
but no dimension column does, only the *product-level* computation falls
back to the single `__all` catch-all group covering all rows (with every
dimension field null); the campaign-level and search-term-level
computations instead return the empty list. -/
theorem c5_catch_all_product_only (load : String → Except String Frame)
    (names : List String) (sortBy : String) (asc : Bool) (limit : ℕ)
    (b : BaseMetrics)
    (hcname : first_existing_column (concat_frames (campaign_frames load names)).cols
      ["Campaign Name", "campaign_name", "Campaign"] = none)
    (hcid : first_existing_column (concat_frames (campaign_frames load names)).cols
      ["Campaign ID", "campaign_id"] = none)
    (hst : first_existing_column (concat_frames (loaded_frames load names)).cols
      ["Search Term", "search_term", "Customer Search Term"] = none)
    (hasin : first_existing_column (concat_frames (loaded_frames load names)).cols
      ["ASIN", "asin"] = none)
    (hsku : first_existing_column (concat_frames (loaded_frames load names)).cols
      ["SKU", "sku"] = none)
    (hpn : first_existing_column (concat_frames (loaded_frames load names)).cols
      ["Advertised ASIN", "Product Name", "product_name"] = none)
    (hbrand : first_existing_column (concat_frames (loaded_frames load names)).cols
      ["Brand", "brand"] = none)
    (hcat : first_existing_column (concat_frames (loaded_frames load names)).cols
      ["Category", "category"] = none)
    (hpname : first_existing_column (concat_frames (loaded_frames load names)).cols
      ["Campaign Name", "campaign_name", "Campaign"] = none)
    (hpid : first_existing_column (concat_frames (loaded_frames load names)).cols
      ["Campaign ID", "campaign_id"] = none)
    (hrows : (concat_frames (loaded_frames load names)).rows ≠ [])
    (hagg : aggregate_base_metrics
      (setCol (concat_frames (loaded_frames load names)) "__all" (some (.num 1))) = .ok b)
    (hvb : validBase b = true)
    (hlim : 1 ≤ limit) :
    compute_campaign_metrics load names sortBy asc limit = .ok [] ∧
    compute_search_term_metrics load names sortBy asc limit = .ok [] ∧
    compute_product_metrics load names sortBy asc limit =
      .ok [⟨none, none, none, none, none, none, none, b⟩] := by
  refine ⟨?_, ?_, ?_⟩
  · by_cases hfe : (campaign_frames load names).isEmpty
    · simp [compute_campaign_metrics, hfe]
    · simp [compute_campaign_metrics, campaign_result, hfe, hcname, hcid]
  · by_cases hfe : (loaded_frames load names).isEmpty
    · simp [compute_search_term_metrics, hfe]
    · simp [compute_search_term_metrics, search_term_result, hfe, hst]
  · have hframes_ne : loaded_frames load names ≠ [] := fun hcon => hrows (by rw [hcon]; rfl)
    have hie : (loaded_frames load names).isEmpty = false := by
      cases h2 : loaded_frames load names with
      | nil => exact absurd h2 hframes_ne
      | cons a t => rfl
    have hlen := concat_frames_row_length (loaded_frames load names)
    have hget := getCell_setCol_self (concat_frames (loaded_frames load names))
      "__all" (some (.num 1)) hlen
    have hsne : (setCol (concat_frames (loaded_frames load names)) "__all"
        (some (.num 1))).rows ≠ [] := by
      cases hidx : idxOf? "__all" (concat_frames (loaded_frames load names)).cols with
      | none =>
        simp only [setCol, hidx, ne_eq, List.map_eq_nil_iff]
        exact hrows
      | some i =>
        simp only [setCol, hidx, ne_eq, List.map_eq_nil_iff]
        exact hrows
    have hkeys : ∀ r ∈ (setCol (concat_frames (loaded_frames load names)) "__all"
        (some (.num 1))).rows,
        keyOf (setCol (concat_frames (loaded_frames load names)) "__all"
          (some (.num 1))).cols ["__all"] r = [some (.num 1)] := by
      intro r hr
      unfold keyOf
      simp [hget r hr]
    have hgb := group_by_const _ ["__all"] [some (.num 1)] hsne hkeys
    have hmk : mk_product_metrics none none none none none none none ["__all"]
        [some (.num 1)] b = .ok ⟨none, none, none, none, none, none, none, b⟩ := by
      simp [mk_product_metrics, hvb]
    simp only [compute_product_metrics, product_result, hasin, hsku, hpn, hbrand, hcat,
      hpname, hpid, hie, Bool.false_eq_true, if_false, Option.toList_none, List.nil_append,
      List.append_nil, List.isEmpty_nil, if_true, hgb, build_entries, hagg, hmk,
      sort_entries, ssort, sinsert]
    rw [List.take_of_length_le (by simpa using hlim)]

/-- Witness for C5 at the concrete table `frameC5`. -/
theorem c5_catch_all_product_only_witness :
    compute_campaign_metrics (load_dataframe fsC5) ["sponsored_display"] "spend" false 50 = .ok [] ∧
    compute_search_term_metrics (load_dataframe fsC5) ["sponsored_display"] "spend" false 50 = .ok [] ∧
    compute_product_metrics (load_dataframe fsC5) ["sponsored_display"] "spend" false 50 =
      .ok [⟨none, none, none, none, none, none, none, baseC5⟩] :=
  c5_catch_all_product_only (load_dataframe fsC5) ["sponsored_display"] "spend" false 50 baseC5
    (by decide) (by decide) (by decide) (by decide) (by decide) (by decide) (by decide)
    (by decide) (by decide) (by decide) (by decide) (by decide) (by decide) (by decide)

/-- Counterexample to C5 as stated: on `frameC5` the required numeric
columns resolve and no dimension column resolves, yet the campaign-level
computation returns no results — it has no catch-all fallback. -/
theorem c5_campaign_no_catch_all_counterexample :
    (extract_numeric_columns frameC5.cols).isOk = true ∧
    first_existing_column frameC5.cols ["Campaign Name", "campaign_name", "Campaign"] = none ∧
    first_existing_column frameC5.cols ["Campaign ID", "campaign_id"] = none ∧
    compute_campaign_metrics (load_dataframe fsC5) ["sponsored_display"] "spend" false 50 =
      .ok [] := by decide

/-- A dataset whose load raises contributes nothing to the collected
frames: the collection over `pre ++ [n] ++ post` equals the collection over
`pre ++ post`. -/
theorem frames_of_loaded_skip (g : String → Frame → Frame)
    (load : String → Except String Frame) (pre post : List String)
    (n : String) (e : String) (hn : load n = .error e) :
    frames_of_loaded g load (pre ++ n :: post) = frames_of_loaded g load (pre ++ post) := by
  unfold frames_of_loaded
  rw [List.filterMap_append, List.filterMap_append]
  congr 1
  simp [List.filterMap_cons, hn]

/-- If every dataset fails to load, no frame is collected. -/
theorem frames_of_loaded_all_error (g : String → Frame → Frame)
    (load : String → Except String Frame) (names : List String)
    (h : ∀ m ∈ names, (load m).isOk = false) :
    frames_of_loaded g load names = [] := by
  induction names with
  | nil => rfl
  | cons m rest ih =>
    have hm := h m (by simp)
    unfold frames_of_loaded
    rw [List.filterMap_cons]
    cases hl : load m with
    | ok df => rw [hl] at hm; cases hm
    | error e =>
      simp only []
      exact ih (fun m2 hm2 => h m2 (by simp [hm2]))

/-- Aggregation fails whenever numeric-column resolution fails. -/
theorem aggregate_isOk_false_of_extract (f : Frame)
    (h : (extract_numeric_columns f.cols).isOk = false) :
    (aggregate_base_metrics f).isOk = false := by
  unfold aggregate_base_metrics
  cases hx : extract_numeric_columns f.cols with
  | error e => rfl
  | ok t => rw [hx] at h; exact Bool.noConfusion h

/-- `setCol` either rewrites in place or appends the new column. -/
theorem setCol_cols (f : Frame) (c : String) (v : Cell) :
    (setCol f c v).cols = f.cols ∨ (setCol f c v).cols = f.cols ++ [c] := by
  cases hidx : idxOf? c f.cols with
  | none => right; simp [setCol, hidx]
  | some i => left; simp [setCol, hidx]

/-- Campaign-level aggregation returns the empty list when the
concatenated table's required numeric columns cannot be resolved. -/
theorem compute_campaign_empty_of_extract (load : String → Except String Frame)
    (names : List String) (sortBy : String) (asc : Bool) (limit : ℕ)
    (h : (extract_numeric_columns (concat_frames (campaign_frames load names)).cols).isOk = false) :
    compute_campaign_metrics load names sortBy asc limit = .ok [] := by
  cases hfe : (campaign_frames load names).isEmpty with
  | true => simp [compute_campaign_metrics, hfe]
  | false =>
    have hbe : ∀ (mk : List Cell → BaseMetrics → Except String CampaignMetrics) gk,
        build_entries mk (group_by (concat_frames (campaign_frames load names)) gk) = .ok [] := by
      intro mk gk
      refine build_entries_all_skip mk _ (fun gp hg => ?_)
      refine aggregate_isOk_false_of_extract _ ?_
      rw [group_by_cols _ _ gp hg]
      exact h
    simp only [compute_campaign_metrics, campaign_result, hfe, Bool.false_eq_true, if_false]
    split
    · rfl
    · rw [hbe]
      simp [sort_entries, ssort]

/-- Search-term aggregation returns the empty list when the concatenated
table's required numeric columns cannot be resolved. -/
theorem compute_search_empty_of_extract (load : String → Except String Frame)
    (names : List String) (sortBy : String) (asc : Bool) (limit : ℕ)
    (h : (extract_numeric_columns (concat_frames (loaded_frames load names)).cols).isOk = false) :
    compute_search_term_metrics load names sortBy asc limit = .ok [] := by
  cases hfe : (loaded_frames load names).isEmpty with
  | true => simp [compute_search_term_metrics, hfe]
  | false =>
    have hbe : ∀ (mk : List Cell → BaseMetrics → Except String SearchTermMetrics) gk,
        build_entries mk (group_by (concat_frames (loaded_frames load names)) gk) = .ok [] := by
      intro mk gk
      refine build_entries_all_skip mk _ (fun gp hg => ?_)
      refine aggregate_isOk_false_of_extract _ ?_
      rw [group_by_cols _ _ gp hg]
      exact h
    simp only [compute_search_term_metrics, search_term_result, hfe, Bool.false_eq_true, if_false]
    split
    · rfl
    · rw [hbe]
      simp [sort_entries, ssort]

/-- The tail of `_compute_product_metrics` (grouping, entity construction,
sorting and truncation) yields the empty list when numeric-column
resolution fails on the grouped frame of either branch. -/
theorem product_tail_empty (asinCol skuCol pnCol brandCol catCol idCol nameCol : Option String)
    (df : Frame) (sortBy : String) (asc : Bool) (limit : ℕ)
    (hdf : (extract_numeric_columns df.cols).isOk = false)
    (hall : (extract_numeric_columns (setCol df "__all" (some (.num 1))).cols).isOk = false) :
    (match build_entries (mk_product_metrics asinCol skuCol pnCol brandCol catCol idCol nameCol
        (if (asinCol.toList ++ skuCol.toList ++ pnCol.toList ++ idCol.toList ++ nameCol.toList).isEmpty = true
         then (setCol df "__all" (some (.num 1)), ["__all"])
         else (df, asinCol.toList ++ skuCol.toList ++ pnCol.toList ++ idCol.toList ++ nameCol.toList)).2)
      (group_by
        (if (asinCol.toList ++ skuCol.toList ++ pnCol.toList ++ idCol.toList ++ nameCol.toList).isEmpty = true
         then (setCol df "__all" (some (.num 1)), ["__all"])
         else (df, asinCol.toList ++ skuCol.toList ++ pnCol.toList ++ idCol.toList ++ nameCol.toList)).1
        (if (asinCol.toList ++ skuCol.toList ++ pnCol.toList ++ idCol.toList ++ nameCol.toList).isEmpty = true
         then (setCol df "__all" (some (.num 1)), ["__all"])
         else (df, asinCol.toList ++ skuCol.toList ++ pnCol.toList ++ idCol.toList ++ nameCol.toList)).2) with
     | Except.error e => (Except.error e : Except String (List ProductMetrics))
     | Except.ok results => Except.ok ((sort_entries ProductMetrics.base sortBy asc results).take limit))
      = .ok ([] : List ProductMetrics) := by
  have hbe : ∀ (mk : List Cell → BaseMetrics → Except String ProductMetrics) (fr : Frame)
      (gk : List String), (extract_numeric_columns fr.cols).isOk = false →
      build_entries mk (group_by fr gk) = .ok [] := by
    intro mk fr gk hfr
    refine build_entries_all_skip mk _ (fun gp hg => ?_)
    refine aggregate_isOk_false_of_extract _ ?_
    rw [group_by_cols _ _ gp hg]
    exact hfr
  by_cases hc : (asinCol.toList ++ skuCol.toList ++ pnCol.toList ++ idCol.toList ++ nameCol.toList).isEmpty = true
  · rw [if_pos hc, hbe _ _ _ hall]
    simp [sort_entries, ssort]
  · rw [if_neg hc, hbe _ _ _ hdf]
    simp [sort_entries, ssort]

/-- Product aggregation returns the empty list when the concatenated
table's required numeric columns cannot be resolved (also through the
`__all` catch-all branch, whose helper column resolves no numeric
field). -/
theorem compute_product_empty_of_extract (load : String → Except String Frame)
    (names : List String) (sortBy : String) (asc : Bool) (limit : ℕ)
    (h : (extract_numeric_columns (concat_frames (loaded_frames load names)).cols).isOk = false) :
    compute_product_metrics load names sortBy asc limit = .ok [] := by
  cases hfe : (loaded_frames load names).isEmpty with
  | true => simp [compute_product_metrics, hfe]
  | false =>
    have hall : (extract_numeric_columns
        (setCol (concat_frames (loaded_frames load names)) "__all" (some (.num 1))).cols).isOk
        = false := by
      cases setCol_cols (concat_frames (loaded_frames load names)) "__all" (some (.num 1)) with
      | inl hc => rw [hc]; exact h
      | inr hc => rw [hc, extract_append_all]; exact h
    simp only [compute_product_metrics, product_result, hfe, Bool.false_eq_true, if_false]
    exact product_tail_empty _ _ _ _ _ _ _ _ _ _ _ h hall

/-- **C4 (amended).** A dataset that fails to load is skipped for that
dataset only, and aggregation continues over the remaining datasets; if
every requested dataset fails to load, each grouped computation returns the
empty list.  Required-numeric-column resolution, however, is applied to the
*concatenated* table of all loaded datasets — when it fails there, each
grouped computation returns the empty list rather than raising.  (A dataset
whose own columns do not resolve is *not* skipped when concatenation with
other datasets makes the columns resolvable — see the counterexample.) -/
theorem c4_failure_semantics (load : String → Except String Frame)
    (pre post : List String) (n : String) (eLoad : String)
    (sortBy : String) (asc : Bool) (limit : ℕ)
    (hn : load n = .error eLoad) :
    (compute_campaign_metrics load (pre ++ n :: post) sortBy asc limit =
       compute_campaign_metrics load (pre ++ post) sortBy asc limit ∧
     compute_search_term_metrics load (pre ++ n :: post) sortBy asc limit =
       compute_search_term_metrics load (pre ++ post) sortBy asc limit ∧
     compute_product_metrics load (pre ++ n :: post) sortBy asc limit =
       compute_product_metrics load (pre ++ post) sortBy asc limit) ∧
    ((∀ m ∈ pre ++ n :: post, (load m).isOk = false) →
       compute_campaign_metrics load (pre ++ n :: post) sortBy asc limit = .ok [] ∧
       compute_search_term_metrics load (pre ++ n :: post) sortBy asc limit = .ok [] ∧
       compute_product_metrics load (pre ++ n :: post) sortBy asc limit = .ok []) ∧
    ((extract_numeric_columns
        (concat_frames (campaign_frames load (pre ++ n :: post))).cols).isOk = false →
       compute_campaign_metrics load (pre ++ n :: post) sortBy asc limit = .ok []) ∧
    ((extract_numeric_columns
        (concat_frames (loaded_frames load (pre ++ n :: post))).cols).isOk = false →
       compute_search_term_metrics load (pre ++ n :: post) sortBy asc limit = .ok [] ∧
       compute_product_metrics load (pre ++ n :: post) sortBy asc limit = .ok []) := by
  have hcf : campaign_frames load (pre ++ n :: post) = campaign_frames load (pre ++ post) :=
    frames_of_loaded_skip _ _ _ _ _ _ hn
  have hlf : loaded_frames load (pre ++ n :: post) = loaded_frames load (pre ++ post) :=
    frames_of_loaded_skip _ _ _ _ _ _ hn
  refine ⟨⟨?_, ?_, ?_⟩, ?_, ?_, ?_⟩
  · simp only [compute_campaign_metrics, hcf]
  · simp only [compute_search_term_metrics, hlf]
  · simp only [compute_product_metrics, hlf]
  · intro hall
    have hcf0 : campaign_frames load (pre ++ n :: post) = [] :=
      frames_of_loaded_all_error _ _ _ hall
    have hlf0 : loaded_frames load (pre ++ n :: post) = [] :=
      frames_of_loaded_all_error _ _ _ hall
    refine ⟨?_, ?_, ?_⟩
    · simp [compute_campaign_metrics, hcf0]
    · simp [compute_search_term_metrics, hlf0]
    · simp [compute_product_metrics, hlf0]
  · intro hx
    exact compute_campaign_empty_of_extract load _ sortBy asc limit hx
  · intro hx
    exact ⟨compute_search_empty_of_extract load _ sortBy asc limit hx,
           compute_product_empty_of_extract load _ sortBy asc limit hx⟩

/-- Witness for C4: with every load failing, the failing dataset is
skipped and all three computations return the empty list. -/
theorem c4_failure_semantics_witness :
    compute_campaign_metrics (load_dataframe fsMissing)
        ["sponsored_display", "sponsored_brands"] "spend" false 50 =
      compute_campaign_metrics (load_dataframe fsMissing) ["sponsored_brands"] "spend" false 50 ∧
    compute_campaign_metrics (load_dataframe fsMissing)
      ["sponsored_display", "sponsored_brands"] "spend" false 50 = .ok [] ∧
    compute_search_term_metrics (load_dataframe fsMissing)
      ["sponsored_display", "sponsored_brands"] "spend" false 50 = .ok [] ∧
    compute_product_metrics (load_dataframe fsMissing)
      ["sponsored_display", "sponsored_brands"] "spend" false 50 = .ok [] := by
  have h := c4_failure_semantics (load_dataframe fsMissing) [] ["sponsored_brands"]
    "sponsored_display" "File not found: SD_AdvertisedProduct.xlsx" "spend" false 50 (by decide)
  have h2 := h.2.1 (by decide)
  exact ⟨h.1.1, h2.1, h2.2.1, h2.2.2⟩

/-- Counterexample to C4 as stated: two datasets, each individually
unusable (required numeric columns unresolvable), concatenate into a
usable table — so neither dataset is skipped and the campaign computation
returns two zero-filled entities instead of the empty list the claim
demands when no dataset yields usable data. -/
theorem c4_concat_resolution_counterexample :
    (extract_numeric_columns frameC4sd.cols).isOk = false ∧
    (extract_numeric_columns frameC4sb.cols).isOk = false ∧
    compute_campaign_metrics (load_dataframe fsC4) ["sponsored_display", "sponsored_brands"]
      "spend" false 50 =
      .ok [⟨some "nan", none, some .SD, ⟨1, 2, 1, 0, 0, 0, 0, 0, 1/2, 2⟩⟩,
           ⟨some "X", none, some .SB, ⟨0, 0, 0, 100, 10, 1/10, 0, 0, 0, 0⟩⟩] := by decide

/-! Permutation lemmas for order-independence. -/

/-- Stable insertion permutes. -/
theorem sinsert_perm {α : Type} (le : α → α → Bool) (x : α) (l : List α) :
    List.Perm (sinsert le x l) (x :: l) := by
  induction l with
  | nil => exact List.Perm.refl _
  | cons y t ih =>
    unfold sinsert
    by_cases hxy : le x y = true
    · rw [if_pos hxy]
    · rw [if_neg hxy]
      exact (ih.cons y).trans (List.Perm.swap x y t)

/-- The stable sort permutes. -/
theorem ssort_perm {α : Type} (le : α → α → Bool) (l : List α) :
    List.Perm (ssort le l) l := by
  induction l with
  | nil => exact List.Perm.refl _
  | cons x t ih => exact (sinsert_perm le x (ssort le t)).trans (ih.cons x)

/-- Column sums are invariant under row permutation. -/
theorem colSum_perm (f f' : Frame) (hc : f'.cols = f.cols) (hr : List.Perm f'.rows f.rows)
    (c : String) : colSum f' c = colSum f c := by
  unfold colSum
  rw [hc]
  exact List.Perm.sum_eq (hr.map _)

/-- Group aggregation is invariant (as a value) under row permutation. -/
theorem aggregate_perm (f f' : Frame) (hc : f'.cols = f.cols) (hr : List.Perm f'.rows f.rows) :
    aggregate_base_metrics f' = aggregate_base_metrics f := by
  unfold aggregate_base_metrics
  rw [hc]
  cases hx : extract_numeric_columns f.cols with
  | error e => rfl
  | ok t =>
    obtain ⟨sc, slc, oc, ic, cc⟩ := t
    simp only [colSum_perm f f' hc hr]

/-- The per-group loop is the `collect` of its `outcome` list. -/
theorem build_entries_eq_collect {α : Type} (mk : List Cell → BaseMetrics → Except String α)
    (gs : List (List Cell × Frame)) :
    build_entries mk gs = collect (gs.map (outcome mk)) := by
  induction gs with
  | nil => rfl
  | cons g rest ih =>
    cases hagg : aggregate_base_metrics g.2 with
    | error e => simp [build_entries, outcome, collect, hagg, ih]
    | ok b =>
      cases hmk : mk g.1 b with
      | error e => simp [build_entries, outcome, collect, hagg, hmk]
      | ok x =>
        simp only [build_entries, outcome, hagg, hmk, List.map_cons, collect, ih]
        rfl

/-- Permuting the outcome list permutes a successful `collect`. -/
theorem collect_perm {α : Type} {os os' : List (Option (Except String α))}
    (p : List.Perm os os') (res : List α) (h : collect os = .ok res) :
    ∃ res', collect os' = .ok res' ∧ List.Perm res' res := by
  induction p generalizing res with
  | nil =>
    cases h
    exact ⟨[], rfl, List.Perm.refl _⟩
  | @cons x l₁ l₂ p ih =>
    cases x with
    | none => exact ih res h
    | some ex =>
      cases ex with
      | error e => exact Except.noConfusion h
      | ok a =>
        cases hrest : collect l₁ with
        | error e =>
          have h2 : collect (some (.ok a) :: l₁) = Except.error e := by
            simp [collect, hrest]
          rw [h2] at h
          exact Except.noConfusion h
        | ok xs =>
          have h2 : collect (some (.ok a) :: l₁) = Except.ok (a :: xs) := by
            simp [collect, hrest]
          rw [h2] at h
          cases h
          obtain ⟨xs', hxs', hpm⟩ := ih xs hrest
          exact ⟨a :: xs', by simp [collect, hxs'], hpm.cons a⟩
  | swap x y l =>
    cases x with
    | none =>
      cases y with
      | none => exact ⟨res, h, List.Perm.refl _⟩
      | some ey =>
        cases ey with
        | error e => exact Except.noConfusion h
        | ok a => exact ⟨res, h, List.Perm.refl _⟩
    | some ex =>
      cases ex with
      | error e =>
        cases y with
        | none => exact Except.noConfusion h
        | some ey =>
          cases ey with
          | error e2 => exact Except.noConfusion h
          | ok b =>
            have h2 : collect (some (.ok b) :: some (.error e) :: l) =
                Except.error (α := List α) e := by
              simp [collect]
            rw [h2] at h
            exact Except.noConfusion h
      | ok a =>
        cases y with
        | none => exact ⟨res, h, List.Perm.refl _⟩
        | some ey =>
          cases ey with
          | error e => exact Except.noConfusion h
          | ok b =>
            cases hrest : collect l with
            | error e =>
              have h2 : collect (some (.ok b) :: some (.ok a) :: l) =
                  Except.error (α := List α) e := by
                simp [collect, hrest]
              rw [h2] at h
              exact Except.noConfusion h
            | ok xs =>
              have h2 : collect (some (.ok b) :: some (.ok a) :: l) =
                  Except.ok (b :: a :: xs) := by
                simp [collect, hrest]
              rw [h2] at h
              cases h
              refine ⟨a :: b :: xs, by simp [collect, hrest], List.Perm.swap b a xs⟩
  | trans p1 p2 ih1 ih2 =>
    obtain ⟨r1, h1, hp1⟩ := ih1 res h
    obtain ⟨r2, h2, hp2⟩ := ih2 r1 h1
    exact ⟨r2, h2, hp2.trans hp1⟩

/-- Row permutation permutes the successful per-group results. -/
theorem grouped_results_perm {α : Type} (mk : List Cell → BaseMetrics → Except String α)
    (df df' : Frame) (gk : List String)
    (hc : df'.cols = df.cols) (hr : List.Perm df'.rows df.rows)
    (res : List α) (h : build_entries mk (group_by df gk) = .ok res) :
    ∃ res', build_entries mk (group_by df' gk) = .ok res' ∧ List.Perm res' res := by
  rw [build_entries_eq_collect] at h ⊢
  have hpt : ∀ k, outcome mk (k, ⟨df'.cols,
        df'.rows.filter (fun r => decide (keyOf df.cols gk r = k))⟩)
      = outcome mk (k, ⟨df.cols,
        df.rows.filter (fun r => decide (keyOf df.cols gk r = k))⟩) := by
    intro k
    unfold outcome
    rw [aggregate_perm ⟨df.cols, df.rows.filter (fun r => decide (keyOf df.cols gk r = k))⟩
      ⟨df'.cols, df'.rows.filter (fun r => decide (keyOf df.cols gk r = k))⟩ hc (hr.filter _)]
  have hout' : (group_by df' gk).map (outcome mk) =
      ((df'.rows.map (keyOf df.cols gk)).dedup).map
        (fun k => outcome mk (k, ⟨df.cols,
          df.rows.filter (fun r => decide (keyOf df.cols gk r = k))⟩)) := by
    unfold group_by
    rw [show keyOf df'.cols gk = keyOf df.cols gk from by rw [hc], List.map_map]
    exact List.map_congr_left (fun k _ => hpt k)
  have hout : (group_by df gk).map (outcome mk) =
      ((df.rows.map (keyOf df.cols gk)).dedup).map
        (fun k => outcome mk (k, ⟨df.cols,
          df.rows.filter (fun r => decide (keyOf df.cols gk r = k))⟩)) := by
    unfold group_by
    rw [List.map_map]
    rfl
  rw [hout] at h
  rw [hout']
  exact collect_perm ((((hr.map _).dedup).map _).symm) res h

/-- `setCol` respects column equality and row permutation. -/
theorem setCol_perm (f f' : Frame) (c : String) (v : Cell)
    (hc : f'.cols = f.cols) (hr : List.Perm f'.rows f.rows) :
    (setCol f' c v).cols = (setCol f c v).cols ∧
    List.Perm (setCol f' c v).rows (setCol f c v).rows := by
  unfold setCol
  rw [hc]
  cases idxOf? c f.cols with
  | none => exact ⟨rfl, hr.map _⟩
  | some i => exact ⟨rfl, hr.map _⟩

/-- `normalize_columns` respects column equality and row permutation. -/
theorem normalize_columns_perm (f f' : Frame) (hc : f'.cols = f.cols)
    (hr : List.Perm f'.rows f.rows) :
    (normalize_columns f').cols = (normalize_columns f).cols ∧
    List.Perm (normalize_columns f').rows (normalize_columns f).rows :=
  ⟨by simp [normalize_columns, hc], hr⟩

/-- Concatenating a single frame respects column equality and row
permutation. -/
theorem concat_one_perm (g g' : Frame) (hcg : g'.cols = g.cols)
    (hrg : List.Perm g'.rows g.rows) :
    (concat_frames [g']).cols = (concat_frames [g]).cols ∧
    List.Perm (concat_frames [g']).rows (concat_frames [g]).rows := by
  unfold concat_frames
  constructor
  · simp only [List.foldl_cons, List.foldl_nil, List.nil_append]
    rw [hcg]
  · simp only [List.flatMap_cons, List.flatMap_nil, List.append_nil,
      List.foldl_cons, List.foldl_nil, List.nil_append]
    rw [hcg]
    exact hrg.map _

/-- **C8 (as stated, for the campaign grouping).** Row order does not
matter: serving the same table with its rows permuted yields, whenever the
original run succeeds without the result being truncated by `limit`, a
successful run whose entity list is a permutation (an identical
collection as a set) of the original — same group keys, same per-group
sums and derived ratios.  The same per-group loop (`build_entries` /
`group_by` / `aggregate_base_metrics`) underlies the search-term and
product groupings. -/
theorem c8_order_independence (load load' : String → Except String Frame)
    (name : String) (f f' : Frame) (sortBy : String) (asc : Bool) (limit : ℕ)
    (res : List CampaignMetrics)
    (hld : load name = .ok f) (hld' : load' name = .ok f')
    (hcols : f'.cols = f.cols) (hperm : List.Perm f'.rows f.rows)
    (h : compute_campaign_metrics load [name] sortBy asc limit = .ok res)
    (hlt : res.length < limit) :
    ∃ res', compute_campaign_metrics load' [name] sortBy asc limit = .ok res' ∧
      List.Perm res' res := by
  have hcf : campaign_frames load [name] =
      [setCol (normalize_columns f) "__campaign_type" (some (.str (campaign_type_for name)))] := by
    simp [campaign_frames, frames_of_loaded, hld]
  have hcf' : campaign_frames load' [name] =
      [setCol (normalize_columns f') "__campaign_type" (some (.str (campaign_type_for name)))] := by
    simp [campaign_frames, frames_of_loaded, hld']
  have hn := normalize_columns_perm f f' hcols hperm
  have hs := setCol_perm (normalize_columns f) (normalize_columns f')
    "__campaign_type" (some (.str (campaign_type_for name))) hn.1 hn.2
  have hcc := concat_one_perm _ _ hs.1 hs.2
  have hcomp : compute_campaign_metrics load [name] sortBy asc limit =
      campaign_result (concat_frames [setCol (normalize_columns f) "__campaign_type"
        (some (.str (campaign_type_for name)))]) sortBy asc limit := by
    simp [compute_campaign_metrics, hcf]
  have hcomp' : compute_campaign_metrics load' [name] sortBy asc limit =
      campaign_result (concat_frames [setCol (normalize_columns f') "__campaign_type"
        (some (.str (campaign_type_for name)))]) sortBy asc limit := by
    simp [compute_campaign_metrics, hcf']
  rw [hcomp] at h
  rw [hcomp']
  set df := concat_frames [setCol (normalize_columns f) "__campaign_type"
    (some (.str (campaign_type_for name)))] with hdfdef
  set df2 := concat_frames [setCol (normalize_columns f') "__campaign_type"
    (some (.str (campaign_type_for name)))] with hdf2def
  simp only [campaign_result] at h ⊢
  rw [hcc.1]
  by_cases hcnd : ((first_existing_column df.cols
      ["Campaign Name", "campaign_name", "Campaign"]).isNone &&
      (first_existing_column df.cols ["Campaign ID", "campaign_id"]).isNone) = true
  · rw [if_pos hcnd] at h
    cases h
    exact ⟨[], by rw [if_pos hcnd], List.Perm.refl _⟩
  · rw [if_neg hcnd] at h
    cases hb : build_entries
        (mk_campaign_metrics (first_existing_column df.cols ["Campaign ID", "campaign_id"])
          (first_existing_column df.cols ["Campaign Name", "campaign_name", "Campaign"])
          ((first_existing_column df.cols ["Campaign ID", "campaign_id"]).toList ++
            (first_existing_column df.cols ["Campaign Name", "campaign_name", "Campaign"]).toList ++
            (if df.cols.contains "__campaign_type" then ["__campaign_type"] else [])))
        (group_by df
          ((first_existing_column df.cols ["Campaign ID", "campaign_id"]).toList ++
            (first_existing_column df.cols ["Campaign Name", "campaign_name", "Campaign"]).toList ++
            (if df.cols.contains "__campaign_type" then ["__campaign_type"] else []))) with
    | error e =>
      rw [hb] at h
      exact Except.noConfusion h
    | ok results =>
      rw [hb] at h
      cases h
      obtain ⟨results', hb', hpm⟩ := grouped_results_perm _ df df2 _ hcc.1 hcc.2 results hb
      have hlen1 : (sort_entries CampaignMetrics.base sortBy asc results).length
          = results.length := (ssort_perm _ _).length_eq
      have hlen2 : (sort_entries CampaignMetrics.base sortBy asc results').length
          = results'.length := (ssort_perm _ _).length_eq
      have hle : results.length ≤ limit := by
        have := List.length_take limit (sort_entries CampaignMetrics.base sortBy asc results)
        rw [hlen1] at this
        rw [this] at hlt
        omega
      have hle2 : results'.length ≤ limit := by
        rw [hpm.length_eq]
        exact hle
      refine ⟨(sort_entries CampaignMetrics.base sortBy asc results').take limit, ?_, ?_⟩
      · rw [if_neg hcnd, hb']
      · rw [List.take_of_length_le (by rw [hlen2]; exact hle2),
            List.take_of_length_le (by rw [hlen1]; exact hle)]
        exact ((ssort_perm _ _).trans hpm).trans (ssort_perm _ _).symm

/-- Witness for C8: swapping the two Scenario-B rows leaves the single
aggregated entity unchanged up to permutation. -/
theorem c8_order_independence_witness :
    ∃ res', compute_campaign_metrics loadW8p ["sponsored_display"] "spend" false 50 = .ok res' ∧
      List.Perm res' [entryC7] :=
  c8_order_independence loadW8 loadW8p "sponsored_display" frameC7 frameC7p "spend" false 50
    [entryC7] rfl rfl rfl (by decide) (by decide) (by decide)
